import Mathlib

/-!
Verification development for the health-insurance fraud-detection backend.

The definitions below are a shallow embedding of the Python sources:
  backend/services/fraud_detection_model.py  (FraudDetectionModel)
  backend/services/ai_service.py             (AIService)
  backend/services/document_processor.py     (DocumentProcessor)
  backend/services/document_service.py       (extract_text_from_document)
Python floats are modelled as rationals; every comparison and arithmetic
operation appearing in the embedded code paths is exact at the constants
involved, so the modelling is faithful for the properties proved here.
Python exceptions are modelled as `Except` values that never escape the
embedded functions.
-/

/-- Feature record produced by DocumentProcessor.extract_features
(document_processor.py lines 81-104).  The Python code uses a dict with
exactly these keys, in this order; `.get` lookups downstream always find
the key, so a fixed-schema structure is a faithful model. -/
@[ext]
structure DocFeatures where
  document_type : String
  text_length : Nat
  word_count : Nat
  has_dates : Bool
  has_amounts : Bool
  has_phone_numbers : Bool
  has_email : Bool
  has_medical_terms : Nat
  has_prescription_terms : Nat
  has_invoice_terms : Nat
  date_consistency : ℚ
  amount_consistency : ℚ
  has_signature : Bool
  has_stamp : Bool
  has_doctor_name : Bool
  has_hospital_name : Bool
  has_policy_number : Bool
  has_claim_number : Bool
deriving Repr, DecidableEq

/-- The neutral accumulator that FraudDetectionModel._aggregate_features
starts from (fraud_detection_model.py lines 108-127). -/
def aggregateInit : DocFeatures :=
  { document_type := "mixed"
  , text_length := 0
  , word_count := 0
  , has_dates := false
  , has_amounts := false
  , has_phone_numbers := false
  , has_email := false
  , has_medical_terms := 0
  , has_prescription_terms := 0
  , has_invoice_terms := 0
  , date_consistency := 1
  , amount_consistency := 1
  , has_signature := false
  , has_stamp := false
  , has_doctor_name := false
  , has_hospital_name := false
  , has_policy_number := false
  , has_claim_number := false }

/-- Loop body of FraudDetectionModel._aggregate_features
(fraud_detection_model.py lines 129-153): integer fields are summed,
boolean fields are OR-ed, and each consistency field is replaced by the
average of the accumulator and the current document value. -/
def aggStep (acc : DocFeatures) (d : DocFeatures) : DocFeatures :=
  { acc with
    text_length := acc.text_length + d.text_length
  , word_count := acc.word_count + d.word_count
  , has_medical_terms := acc.has_medical_terms + d.has_medical_terms
  , has_prescription_terms := acc.has_prescription_terms + d.has_prescription_terms
  , has_invoice_terms := acc.has_invoice_terms + d.has_invoice_terms
  , has_dates := acc.has_dates || d.has_dates
  , has_amounts := acc.has_amounts || d.has_amounts
  , has_phone_numbers := acc.has_phone_numbers || d.has_phone_numbers
  , has_email := acc.has_email || d.has_email
  , has_signature := acc.has_signature || d.has_signature
  , has_stamp := acc.has_stamp || d.has_stamp
  , has_doctor_name := acc.has_doctor_name || d.has_doctor_name
  , has_hospital_name := acc.has_hospital_name || d.has_hospital_name
  , has_policy_number := acc.has_policy_number || d.has_policy_number
  , has_claim_number := acc.has_claim_number || d.has_claim_number
  , date_consistency := (acc.date_consistency + d.date_consistency) / 2
  , amount_consistency := (acc.amount_consistency + d.amount_consistency) / 2 }

/-- FraudDetectionModel._aggregate_features (fraud_detection_model.py
lines 106-155). -/
def aggregateFeatures (docs : List DocFeatures) : DocFeatures :=
  docs.foldl aggStep aggregateInit

/-- Positive per-document increments of FraudDetectionModel._rule_based_scoring
(fraud_detection_model.py lines 165-181), summed in source order. -/
def posDelta (d : DocFeatures) : ℚ :=
  (if d.has_signature then 5 else 0)
  + (if d.has_stamp then 5 else 0)
  + (if d.has_doctor_name then 5 else 0)
  + (if d.has_hospital_name then 5 else 0)
  + (if d.has_policy_number then 3 else 0)
  + (if d.has_claim_number then 3 else 0)
  + (if d.has_medical_terms > 3 then 5 else 0)
  + (if d.text_length > 500 then 3 else 0)

/-- Negative per-document decrements of FraudDetectionModel._rule_based_scoring
(fraud_detection_model.py lines 184-194), summed in source order. -/
def negDelta (d : DocFeatures) : ℚ :=
  (if d.text_length < 50 then 10 else 0)
  + (if !d.has_dates then 5 else 0)
  + (if !d.has_amounts && d.document_type == "invoice" then 10 else 0)
  + (if d.date_consistency < 1/2 then 10 else 0)
  + (if d.amount_consistency < 1/2 then 10 else 0)

/-- The final normalisation `max(0.0, min(100.0, score))` of
fraud_detection_model.py line 197 (also line 101). -/
def clampScore (x : ℚ) : ℚ := max 0 (min 100 x)

/-- FraudDetectionModel._rule_based_scoring (fraud_detection_model.py
lines 157-199): start at the neutral 50.0, add every positive increment over
all documents, then subtract every penalty over all documents, then clamp. -/
def ruleBasedScoring (docs : List DocFeatures) : ℚ :=
  if docs.isEmpty then 50
  else
    let s1 := docs.foldl (fun s d => s + posDelta d) 50
    let s2 := docs.foldl (fun s d => s - negDelta d) s1
    clampScore s2

/-- Ordinal encoding of document_type in FraudDetectionModel
(fraud_detection_model.py lines 32-38 and 47-50, with default 0.5). -/
def docTypeEncoding (t : String) : ℚ :=
  if t = "medical_report" then 1
  else if t = "prescription" then 8/10
  else if t = "invoice" then 6/10
  else if t = "lab_result" then 7/10
  else if t = "other" then 1/2
  else 1/2

/-- Coercion of Python bools to floats used by _extract_features_vector. -/
def boolToQ (b : Bool) : ℚ := if b then 1 else 0

/-- FraudDetectionModel._extract_features_vector (fraud_detection_model.py
lines 43-59): document-type ordinal followed by the 17 named features in the
fixed feature_names order (lines 24-31). -/
def extractFeaturesVector (f : DocFeatures) : List ℚ :=
  [ docTypeEncoding f.document_type
  , (f.text_length : ℚ)
  , (f.word_count : ℚ)
  , boolToQ f.has_dates
  , boolToQ f.has_amounts
  , boolToQ f.has_phone_numbers
  , boolToQ f.has_email
  , (f.has_medical_terms : ℚ)
  , (f.has_prescription_terms : ℚ)
  , (f.has_invoice_terms : ℚ)
  , f.date_consistency
  , f.amount_consistency
  , boolToQ f.has_signature
  , boolToQ f.has_stamp
  , boolToQ f.has_doctor_name
  , boolToQ f.has_hospital_name
  , boolToQ f.has_policy_number
  , boolToQ f.has_claim_number ]

/-- A loaded model artifact: the scaler transform, whether the classifier
exposes predict_proba, and the two prediction entry points.  Each step may
fail, modelling the Python exceptions raised inside the try block of
predict_legit_percentage (fraud_detection_model.py lines 78-101). -/
structure ModelState where
  scalerTransform : List ℚ → Except String (List ℚ)
  hasPredictProba : Bool
  predictProba : List ℚ → Except String (List ℚ)
  predict : List ℚ → Except String ℚ

/-- The probability branch of predict_legit_percentage
(fraud_detection_model.py lines 89-92): `probabilities[1] if
len(probabilities) > 1 else probabilities[0]`; indexing an empty array
raises, modelled as an error value. -/
def probaPath (m : ModelState) (scaled : List ℚ) : Except String ℚ :=
  match m.predictProba scaled with
  | .error e => .error e
  | .ok [] => .error "index out of range"
  | .ok [p] => .ok p
  | .ok (_ :: p :: _) => .ok p

/-- The binary-prediction branch of predict_legit_percentage
(fraud_detection_model.py lines 93-96). -/
def predictPath (m : ModelState) (scaled : List ℚ) : Except String ℚ :=
  match m.predict scaled with
  | .error e => .error e
  | .ok pred => .ok (if pred = 1 then 1 else 0)

/-- The whole try block of predict_legit_percentage in model mode
(fraud_detection_model.py lines 78-101): aggregate, vectorise, scale,
predict a legit probability, convert to a percentage and clamp.  Any error
value models an exception reaching the except clause. -/
def modelPredictLegit (m : ModelState) (docs : List DocFeatures) : Except String ℚ :=
  match m.scalerTransform (extractFeaturesVector (aggregateFeatures docs)) with
  | .error e => .error e
  | .ok scaled =>
    match (if m.hasPredictProba then probaPath m scaled else predictPath m scaled) with
    | .error e => .error e
    | .ok legitProb => .ok (clampScore (legitProb * 100))

/-- FraudDetectionModel.predict_legit_percentage (fraud_detection_model.py
lines 61-104): empty input short-circuits to 50.0; with no model the
rule-based scoring is used; otherwise the model path runs and any failure
falls back to rule-based scoring. -/
def predictLegitPercentage (model : Option ModelState) (docs : List DocFeatures) : ℚ :=
  if docs.isEmpty then 50
  else
    match model with
    | none => ruleBasedScoring docs
    | some m =>
      match modelPredictLegit m docs with
      | .ok p => p
      | .error _ => ruleBasedScoring docs

/-- Risk-level derivation in AIService.analyze_fraud_risk
(ai_service.py lines 98-104). -/
def riskLevelOf (legit : ℚ) : String :=
  if legit ≥ 70 then "low"
  else if legit ≥ 40 then "medium"
  else "high"

/-- Per-document indicator contributions inside the loop of
AIService._extract_indicators_from_features (ai_service.py lines 145-157),
appended in source order. -/
def docIndicators (d : DocFeatures) : List String :=
  (if d.text_length < 50 then ["Document contains very little text"] else [])
  ++ (if !d.has_dates then ["Missing dates in documents"] else [])
  ++ (if !d.has_signature
         && (d.document_type == "medical_report" || d.document_type == "prescription")
      then ["Missing signature on medical document"] else [])
  ++ (if !d.has_doctor_name && d.document_type == "medical_report"
      then ["Missing doctor information"] else [])
  ++ (if d.date_consistency < 1/2 then ["Inconsistent dates across documents"] else [])
  ++ (if d.amount_consistency < 1/2 then ["Inconsistent amounts across documents"] else [])

/-- AIService._extract_indicators_from_features (ai_service.py lines 137-162). -/
def extractIndicatorsFromFeatures (documentsFeatures : List DocFeatures) (legit : ℚ) :
    List String :=
  if documentsFeatures.isEmpty then ["No documents uploaded for verification"]
  else
    let perDoc := documentsFeatures.foldl (fun acc d => acc ++ docIndicators d) []
    let ind := perDoc
      ++ (if legit < 40 then ["Low legitimacy score based on document analysis"] else [])
    if ind.isEmpty then ["No major fraud indicators detected"] else ind

/-- Case-sensitive substring containment, Python `needle in hay` on strings. -/
def listContainsSub : List Char → List Char → Bool
  | needle, [] => needle.isEmpty
  | needle, c :: t => needle.isPrefixOf (c :: t) || listContainsSub needle t

/-- AIService._generate_recommendations (ai_service.py lines 164-188). -/
def generateRecommendations (legit : ℚ) (documentsFeatures : List DocFeatures) :
    List String :=
  let base :=
    if legit < 40 then
      ["Conduct detailed manual review", "Request additional documentation",
       "Verify with medical providers"]
    else if legit < 70 then
      ["Review documents carefully", "Cross-check policy coverage"]
    else
      ["Standard review process", "Verify policy coverage"]
  let hasMedicalReport := documentsFeatures.any (fun d => d.document_type == "medical_report")
  let hasInvoice := documentsFeatures.any (fun d => d.document_type == "invoice")
  base
  ++ (if !hasMedicalReport then ["Request medical report for verification"] else [])
  ++ (if !hasInvoice
         && documentsFeatures.any
              (fun d => listContainsSub "invoice".toList d.document_type.toList)
      then ["Request itemized invoice"] else [])

/-- Output shape of _generate_mock_fraud_analysis and of a successfully
parsed Gemini analysis; analyze_fraud_risk reads the indicators,
recommendations and confidence entries from it. -/
structure NarrativeAnalysis where
  fraud_score : ℚ
  risk_level : String
  indicators : List String
  recommendations : List String
  confidence : ℚ
deriving Repr, DecidableEq

/-- AIService._generate_mock_fraud_analysis (ai_service.py lines 399-434),
as a function of the lengths of the documents and questions lists, the only
inputs it inspects. -/
def generateMockFraudAnalysis (numDocuments numQuestions : Nat) : NarrativeAnalysis :=
  let score0 : ℚ := 25
  let score1 := if numDocuments < 2 then score0 + 10 else score0
  let ind1 := if numDocuments < 2 then ["Insufficient documentation"] else []
  let score2 := if numQuestions < 3 then score1 + 5 else score1
  let ind2 := ind1 ++ (if numQuestions < 3 then ["Limited questioning completed"] else [])
  let risk := if score2 > 50 then "high" else if score2 > 30 then "medium" else "low"
  { fraud_score := min score2 100
  , risk_level := risk
  , indicators := ind2
  , recommendations :=
      ["Review all submitted documents carefully", "Verify with medical providers",
       "Cross-check policy coverage"]
  , confidence := 3/4 }

/-- AIService._generate_fraud_analysis (ai_service.py lines 289-373): the
Gemini call either yields a parsed JSON analysis or raises, in which case the
mock analysis over the documents and questions lists is returned. -/
def generateFraudAnalysis (gemini : Except String NarrativeAnalysis)
    (numDocuments numQuestions : Nat) : NarrativeAnalysis :=
  match gemini with
  | .ok a => a
  | .error _ => generateMockFraudAnalysis numDocuments numQuestions

/-- Narrative mode of AIService.analyze_fraud_risk: `disabled` is the
GEMINI_API_KEY-unset branch (local fallback, ai_service.py lines 115-118);
`enabled` carries the outcome of the Gemini call (lines 110-114). -/
inductive AIMode where
  | disabled
  | enabled (gemini : Except String NarrativeAnalysis)

/-- Result record of AIService.analyze_fraud_risk (ai_service.py
lines 120-135, FraudAnalysisResponse in schemas.py). -/
structure FraudAnalysisResponse where
  fraud_score : ℚ
  legit_percentage : ℚ
  risk_level : String
  indicators : List String
  recommendations : List String
  confidence : ℚ
deriving Repr, DecidableEq

/-- AIService.analyze_fraud_risk (ai_service.py lines 71-135), as a function
of the per-document feature records that survived processing, the loaded
model state, the narrative mode, and the lengths of the documents and
questions lists handed to the mock analysis. -/
def analyzeFraudRisk (mode : AIMode) (model : Option ModelState)
    (documentsFeatures : List DocFeatures) (numDocuments numQuestions : Nat) :
    FraudAnalysisResponse :=
  let legit := predictLegitPercentage model documentsFeatures
  let fraud := 100 - legit
  let risk := riskLevelOf legit
  match mode with
  | .disabled =>
    { fraud_score := fraud
    , legit_percentage := legit
    , risk_level := risk
    , indicators := extractIndicatorsFromFeatures documentsFeatures legit
    , recommendations := generateRecommendations legit documentsFeatures
    , confidence := 3/4 }
  | .enabled gemini =>
    let a := generateFraudAnalysis gemini numDocuments numQuestions
    { fraud_score := fraud
    , legit_percentage := legit
    , risk_level := risk
    , indicators := a.indicators
    , recommendations := a.recommendations
    , confidence := a.confidence }

/-!
A small backtracking matcher for the fixed regular expressions of
DocumentProcessor (document_processor.py lines 87-101, 136, 146).  A matcher
maps a suffix of the text to the list of candidate match lengths in the
backtracking priority order of the Python `re` engine (leftmost position,
greedy quantifiers, left alternative first); the head of the list is the
length `re` actually matches at that position.
-/

/-- Sequencing of two matchers: every candidate of the first continued by
every candidate of the second, in priority order. -/
def mSeq (m1 m2 : List Char → List Nat) (s : List Char) : List Nat :=
  (m1 s).flatMap (fun n => (m2 (s.drop n)).map (n + ·))

/-- Alternation, left branch preferred. -/
def mAlt (m1 m2 : List Char → List Nat) (s : List Char) : List Nat :=
  m1 s ++ m2 s

/-- Single character from a class. -/
def mClass (p : Char → Bool) (s : List Char) : List Nat :=
  match s with
  | [] => []
  | c :: _ => if p c then [1] else []

/-- Single literal character. -/
def mChar (c : Char) (s : List Char) : List Nat :=
  mClass (fun x => x = c) s

/-- Length of the leading run of class characters. -/
def leadRun (p : Char → Bool) : List Char → Nat
  | [] => 0
  | c :: t => if p c then leadRun p t + 1 else 0

/-- Bounded greedy repetition `p{lo,hi}` of a one-character class: candidate
lengths from the largest feasible down to `lo`. -/
def mRep (p : Char → Bool) (lo hi : Nat) (s : List Char) : List Nat :=
  let top := min (leadRun p s) hi
  if top < lo then [] else (List.range (top - lo + 1)).map (top - ·)

/-- Unbounded greedy repetition `p{lo,}` of a one-character class. -/
def mRepGe (p : Char → Bool) (lo : Nat) (s : List Char) : List Nat :=
  let top := leadRun p s
  if top < lo then [] else (List.range (top - lo + 1)).map (top - ·)

/-- Optional literal character, greedy. -/
def mOpt (c : Char) (s : List Char) : List Nat :=
  mRep (fun x => x = c) 0 1 s

/-- Python `\s` over the ASCII range (the texts at issue are ASCII). -/
def pyIsSpace (c : Char) : Bool :=
  c = ' ' || c = '\t' || c = '\n' || c = '\r' || c = '\x0b' || c = '\x0c'

/-- Python `\w` over the ASCII range. -/
def isWordChar (c : Char) : Bool :=
  c.isAlphanum || c = '_'

/-- The date pattern of document_processor.py lines 87 and 136. -/
def dateRegex : List Char → List Nat :=
  mSeq (mRep Char.isDigit 1 2)
    (mSeq (mClass (fun c => c = '/' || c = '-'))
      (mSeq (mRep Char.isDigit 1 2)
        (mSeq (mClass (fun c => c = '/' || c = '-'))
          (mRep Char.isDigit 2 4))))

/-- Left alternative of the amount pattern (document_processor.py
lines 88 and 146): a dollar sign, digits, an optional dot, digits. -/
def dollarAmountRegex : List Char → List Nat :=
  mSeq (mChar '$')
    (mSeq (mRepGe Char.isDigit 1)
      (mSeq (mOpt '.') (mRepGe Char.isDigit 0)))

/-- Right alternative of the amount pattern, case-insensitive `Rs`, an
optional dot, whitespace, digits. -/
def rsAmountRegex : List Char → List Nat :=
  mSeq (mClass (fun c => c.toLower = 'r'))
    (mSeq (mClass (fun c => c.toLower = 's'))
      (mSeq (mOpt '.')
        (mSeq (mRepGe pyIsSpace 0) (mRepGe Char.isDigit 1))))

/-- The amount pattern of document_processor.py lines 88 and 146. -/
def amountRegex : List Char → List Nat :=
  mAlt dollarAmountRegex rsAmountRegex

/-- The phone pattern of document_processor.py line 89. -/
def phoneRegex : List Char → List Nat :=
  mSeq (mRep Char.isDigit 3 3)
    (mSeq (mRep (fun c => c = '-' || c = '.') 0 1)
      (mSeq (mRep Char.isDigit 3 3)
        (mSeq (mRep (fun c => c = '-' || c = '.') 0 1)
          (mRep Char.isDigit 4 4))))

/-- Local-part class of the email pattern (document_processor.py line 90). -/
def isEmailLocalChar (c : Char) : Bool :=
  c.isAlphanum || c = '.' || c = '_' || c = '%' || c = '+' || c = '-'

/-- Domain class of the email pattern. -/
def isEmailDomainChar (c : Char) : Bool :=
  c.isAlphanum || c = '.' || c = '-'

/-- Top-level-domain class of the email pattern; the source class
`[A-Z|a-z]` literally includes the bar character. -/
def isEmailTldChar (c : Char) : Bool :=
  (c ≥ 'A' && c ≤ 'Z') || (c ≥ 'a' && c ≤ 'z') || c = '|'

/-- Trailing word-boundary assertion, as a zero-width lookahead: succeeds
exactly when the next character is absent or not a word character (the
character before it is always a TLD letter here, hence a word character). -/
def mNotWordAfter (s : List Char) : List Nat :=
  match s with
  | [] => [0]
  | c :: _ => if isWordChar c then [] else [0]

/-- Email pattern body after the leading word boundary. -/
def emailBodyRegex : List Char → List Nat :=
  mSeq (mRepGe isEmailLocalChar 1)
    (mSeq (mChar '@')
      (mSeq (mRepGe isEmailDomainChar 1)
        (mSeq (mChar '.')
          (mSeq (mRepGe isEmailTldChar 2) mNotWordAfter))))

/-- Word-boundary test between the previous character and the current one,
out-of-string positions counting as non-word. -/
def wordBoundary (prev cur : Option Char) : Bool :=
  (prev.map isWordChar).getD false != (cur.map isWordChar).getD false

/-- The full email pattern of document_processor.py line 90, as a matcher
that also sees the character preceding the current position. -/
def emailRegex (prev : Option Char) (s : List Char) : List Nat :=
  if wordBoundary prev s.head? then emailBodyRegex s else []

/-- Lift a position-independent matcher to one that ignores the previous
character. -/
def plainM (m : List Char → List Nat) : Option Char → List Char → List Nat :=
  fun _ s => m s

/-- Match-existence scan over all positions of the text, threading the
previous character for boundary assertions; models `re.search` returning a
match or None. -/
def searchAux (m : Option Char → List Char → List Nat) :
    Option Char → List Char → Bool
  | prev, [] => !(m prev []).isEmpty
  | prev, c :: cs => !(m prev (c :: cs)).isEmpty || searchAux m (some c) cs

/-- Python `bool(re.search(pattern, text))`. -/
def reSearch (m : Option Char → List Char → List Nat) (s : List Char) : Bool :=
  searchAux m none s

/-- Scan of `re.findall` counting matches left to right: at each position
take the preferred match if any and resume after it, otherwise advance one
character.  The patterns used here never match the empty string.  The fuel
argument makes the recursion structural; the scan consumes at least one
character per step, so fuel `length + 1` is never exhausted. -/
def countMatchesAux (m : List Char → List Nat) : Nat → List Char → Nat
  | 0, _ => 0
  | _ + 1, [] => if (m []).isEmpty then 0 else 1
  | fuel + 1, c :: cs =>
    match (m (c :: cs)).head? with
    | some n => 1 + countMatchesAux m fuel (cs.drop (n - 1))
    | none => countMatchesAux m fuel cs

/-- Number of matches returned by `re.findall(pattern, text)`. -/
def countMatches (m : List Char → List Nat) (s : List Char) : Nat :=
  countMatchesAux m (s.length + 1) s

/-- ASCII lowercasing of a text, Python `text.lower()` on the texts at
issue. -/
def lowerList (s : List Char) : List Char := s.map Char.toLower

/-- Case-insensitive containment `needle.lower() in text.lower()`. -/
def containsCI (hay needle : List Char) : Bool :=
  listContainsSub (lowerList needle) (lowerList hay)

/-- A search for an alternation of plain literals succeeds exactly when some
alternative occurs as a substring; the case-insensitive keyword patterns of
extract_features (document_processor.py lines 96-101) are embedded through
this equivalence. -/
def reSearchAnyCI (alternatives : List String) (text : String) : Bool :=
  alternatives.any (fun a => containsCI text.toList a.toList)

/-- The fixed medical vocabulary of DocumentProcessor._count_medical_terms
(document_processor.py lines 106-114). -/
def medicalTerms : List String :=
  ["diagnosis", "treatment", "symptom", "disease", "condition",
   "medication", "prescription", "dosage", "therapy", "surgery",
   "procedure", "examination", "test", "result", "patient"]

/-- The fixed vocabulary of DocumentProcessor._count_prescription_terms
(document_processor.py lines 116-123). -/
def prescriptionTerms : List String :=
  ["prescription", "rx", "medication", "drug", "tablet", "capsule",
   "dosage", "frequency", "duration", "pharmacy", "pharmacist"]

/-- The fixed vocabulary of DocumentProcessor._count_invoice_terms
(document_processor.py lines 125-132). -/
def invoiceTerms : List String :=
  ["invoice", "bill", "receipt", "amount", "total", "charge",
   "payment", "due", "balance", "tax", "discount", "subtotal"]

/-- Vocabulary hit count, `sum(1 for term in terms if term.lower() in
text.lower())`: one increment per distinct term present. -/
def countTerms (terms : List String) (text : String) : Nat :=
  terms.countP (fun t => containsCI text.toList t.toList)

/-- Number of fields of Python `text.split()`: maximal nonempty runs of
non-whitespace characters. -/
def pySplitCount : List Char → Bool → Nat
  | [], _ => 0
  | c :: t, inWord =>
    if pyIsSpace c then pySplitCount t false
    else (if inWord then 0 else 1) + pySplitCount t true

/-- DocumentProcessor._check_date_consistency (document_processor.py
lines 134-142): 1.0 with fewer than two date matches, else the fixed 0.8. -/
def checkDateConsistency (text : String) : ℚ :=
  if countMatches dateRegex text.toList < 2 then 1 else 8/10

/-- DocumentProcessor._check_amount_consistency (document_processor.py
lines 144-151): 1.0 with fewer than two amount matches, else the fixed
0.8. -/
def checkAmountConsistency (text : String) : ℚ :=
  if countMatches amountRegex text.toList < 2 then 1 else 8/10

/-- DocumentProcessor.extract_features (document_processor.py
lines 81-104). -/
def extractFeatures (text : String) (documentType : String) : DocFeatures :=
  let s := text.toList
  { document_type := documentType
  , text_length := s.length
  , word_count := if s.isEmpty then 0 else pySplitCount s false
  , has_dates := reSearch (plainM dateRegex) s
  , has_amounts := reSearch (plainM amountRegex) s
  , has_phone_numbers := reSearch (plainM phoneRegex) s
  , has_email := reSearch emailRegex s
  , has_medical_terms := countTerms medicalTerms text
  , has_prescription_terms := countTerms prescriptionTerms text
  , has_invoice_terms := countTerms invoiceTerms text
  , date_consistency := checkDateConsistency text
  , amount_consistency := checkAmountConsistency text
  , has_signature := reSearchAnyCI ["signature", "signed", "authorized"] text
  , has_stamp := reSearchAnyCI ["stamp", "seal", "official"] text
  , has_doctor_name := reSearchAnyCI ["dr.", "doctor", "physician", "md", "mbbs"] text
  , has_hospital_name :=
      reSearchAnyCI ["hospital", "clinic", "medical center", "healthcare"] text
  , has_policy_number :=
      reSearchAnyCI ["policy", "pol-", "policy no", "policy number"] text
  , has_claim_number :=
      reSearchAnyCI ["claim", "clm-", "claim no", "claim number"] text }

/-- Test `file_path.lower().endswith(".pdf")` of document_processor.py
line 73. -/
def endsWithPdfLower (path : String) : Bool :=
  ".pdf".toList.isSuffixOf (lowerList path.toList)

/-- DocumentProcessor.extract_text (document_processor.py lines 71-79).
The PDF and OCR extraction results are parameters standing for whatever the
corresponding libraries would return for the file at that path; any other
file type yields the empty string. -/
def extractText (filePath fileType : String) (pdfText ocrText : String) : String :=
  if fileType = "application/pdf" || endsWithPdfLower filePath then pdfText
  else if "image/".toList.isPrefixOf fileType.toList then ocrText
  else ""

/-- DocumentProcessor.process_document (document_processor.py
lines 153-165): note that the document category, not a MIME type, is what
gets passed as the file_type argument of extract_text.  Returns the text
and feature pair; the extra extracted_text entry the Python code stores in
the dict is the `take 1000` of the first component and is read nowhere
downstream. -/
def processDocument (filePath documentType : String) (pdfText ocrText : String) :
    String × DocFeatures :=
  let text := extractText filePath documentType pdfText ocrText
  (text, extractFeatures text documentType)

/-- Outcome of parsing a Word file with python-docx inside
extract_text_from_document: either the list of paragraph texts or a raised
exception. -/
inductive DocxParse where
  | ok (paragraphs : List String)
  | failed

/-- Word branch of document_service.extract_text_from_document
(document_service.py lines 53-62): join the paragraph texts with newlines,
return the first 5000 characters when the join is nonempty, and fall back to
the filename when the join is empty or parsing raised. -/
def wordTextExtract (parse : DocxParse) (filename : String) : String :=
  match parse with
  | .ok paragraphs =>
    let text := String.intercalate "\n" paragraphs
    if text = "" then filename else text.take 5000
  | .failed => filename

/-! Helper lemmas shared by the claim theorems. -/

theorem clampScore_nonneg (x : ℚ) : 0 ≤ clampScore x := le_max_left 0 _

theorem clampScore_le_100 (x : ℚ) : clampScore x ≤ 100 :=
  max_le (by norm_num) (min_le_left _ _)

theorem ruleBasedScoring_bounds (docs : List DocFeatures) :
    0 ≤ ruleBasedScoring docs ∧ ruleBasedScoring docs ≤ 100 := by
  unfold ruleBasedScoring
  split
  · norm_num
  · exact ⟨clampScore_nonneg _, clampScore_le_100 _⟩

theorem modelPredictLegit_ok_bounds (m : ModelState) (docs : List DocFeatures) (q : ℚ)
    (h : modelPredictLegit m docs = .ok q) : 0 ≤ q ∧ q ≤ 100 := by
  unfold modelPredictLegit at h
  split at h
  · cases h
  · split at h
    · cases h
    · cases h
      exact ⟨clampScore_nonneg _, clampScore_le_100 _⟩

theorem predictLegitPercentage_bounds (model : Option ModelState) (docs : List DocFeatures) :
    0 ≤ predictLegitPercentage model docs ∧ predictLegitPercentage model docs ≤ 100 := by
  unfold predictLegitPercentage
  split
  · norm_num
  · cases model with
    | none => exact ruleBasedScoring_bounds docs
    | some m =>
      cases h2 : modelPredictLegit m docs with
      | error e => simp only [h2]; exact ruleBasedScoring_bounds docs
      | ok p => simp only [h2]; exact modelPredictLegit_ok_bounds m docs p h2

/-- C1: for every list of document feature records, the legit percentage
returned by FraudDetectionModel.predict_legit_percentage lies in [0, 100],
and the result of AIService.analyze_fraud_risk carries exactly that value
with fraud_score equal to 100 minus it. -/
theorem C1_legit_range_and_fraud_complement (mode : AIMode) (model : Option ModelState)
    (dfs : List DocFeatures) (nD nQ : Nat) :
    0 ≤ (analyzeFraudRisk mode model dfs nD nQ).legit_percentage ∧
    (analyzeFraudRisk mode model dfs nD nQ).legit_percentage ≤ 100 ∧
    (analyzeFraudRisk mode model dfs nD nQ).legit_percentage
      = predictLegitPercentage model dfs ∧
    (analyzeFraudRisk mode model dfs nD nQ).fraud_score
      = 100 - (analyzeFraudRisk mode model dfs nD nQ).legit_percentage := by
  have hb := predictLegitPercentage_bounds model dfs
  cases mode <;> exact ⟨hb.1, hb.2, rfl, rfl⟩

/-- C3: with the empty document list, predict_legit_percentage returns 50
before either scoring strategy can run, for every possible model state
(including one whose every step fails), and the orchestrator derives the
risk level medium for that claim. -/
theorem C3_empty_documents (mode : AIMode) (model : Option ModelState) (nD nQ : Nat) :
    predictLegitPercentage model [] = 50 ∧
    (analyzeFraudRisk mode model [] nD nQ).legit_percentage = 50 ∧
    (analyzeFraudRisk mode model [] nD nQ).risk_level = "medium" := by
  have h50 : predictLegitPercentage model [] = 50 := rfl
  have hrisk : riskLevelOf 50 = "medium" := by norm_num [riskLevelOf]
  cases mode <;> exact ⟨h50, rfl, hrisk⟩

/-- C4: the derived risk level is low exactly when the legit percentage is
at least 70, medium exactly when it is in [40, 70), and high exactly when it
is below 40; the boundary values 70, 69.9, 40 and 39.9 land on low, medium,
medium and high, and analyze_fraud_risk derives its risk level from the
predicted legit percentage through exactly this rule. -/
theorem C4_risk_level_thresholds (legit : ℚ) (mode : AIMode) (model : Option ModelState)
    (dfs : List DocFeatures) (nD nQ : Nat) :
    ((riskLevelOf legit = "low") ↔ 70 ≤ legit) ∧
    ((riskLevelOf legit = "medium") ↔ (40 ≤ legit ∧ legit < 70)) ∧
    ((riskLevelOf legit = "high") ↔ legit < 40) ∧
    riskLevelOf 70 = "low" ∧ riskLevelOf (699/10) = "medium" ∧
    riskLevelOf 40 = "medium" ∧ riskLevelOf (399/10) = "high" ∧
    (analyzeFraudRisk mode model dfs nD nQ).risk_level
      = riskLevelOf (predictLegitPercentage model dfs) := by
  refine ⟨?_, ?_, ?_, by norm_num [riskLevelOf], by norm_num [riskLevelOf],
    by norm_num [riskLevelOf], by norm_num [riskLevelOf], ?_⟩
  · unfold riskLevelOf
    split_ifs with h1 h2
    · exact iff_of_true rfl h1
    · exact iff_of_false (by decide) h1
    · exact iff_of_false (by decide) h1
  · unfold riskLevelOf
    split_ifs with h1 h2
    · exact iff_of_false (by decide) (fun hc => absurd h1 (not_le.mpr hc.2))
    · exact iff_of_true rfl ⟨h2, not_le.mp h1⟩
    · exact iff_of_false (by decide) (fun hc => h2 hc.1)
  · unfold riskLevelOf
    split_ifs with h1 h2
    · exact iff_of_false (by decide) (not_lt.mpr (le_trans (by norm_num) h1))
    · exact iff_of_false (by decide) (not_lt.mpr h2)
    · exact iff_of_true rfl (not_le.mp h2)
  · cases mode <;> rfl

/-- C5: predict_legit_percentage is a total function (exceptions are
confined to the model path, modelled as error values), and whenever the
model path fails at any step it returns the rule-based score for the same
input instead of propagating the error. -/
theorem C5_model_failure_falls_back_to_rules (m : ModelState) (docs : List DocFeatures)
    (e : String) (h : modelPredictLegit m docs = .error e) :
    predictLegitPercentage (some m) docs = ruleBasedScoring docs := by
  unfold predictLegitPercentage
  by_cases hd : docs.isEmpty
  · have : docs = [] := List.isEmpty_iff.mp hd
    subst this
    simp [ruleBasedScoring]
  · simp only [hd, Bool.false_eq_true, ite_false, h]

/-- A model state whose scaling step always fails, exercising the fallback
of C5 at a concrete input. -/
def failingModel : ModelState :=
  { scalerTransform := fun _ => .error "scaling error"
  , hasPredictProba := true
  , predictProba := fun v => .ok v
  , predict := fun _ => .ok 0 }

/-- Witness for C5 at a concrete failing model and a concrete document. -/
theorem C5_witness :
    predictLegitPercentage (some failingModel)
        [{ document_type := "other", text_length := 10, word_count := 2
         , has_dates := false, has_amounts := false, has_phone_numbers := false
         , has_email := false, has_medical_terms := 0, has_prescription_terms := 0
         , has_invoice_terms := 0, date_consistency := 1, amount_consistency := 1
         , has_signature := false, has_stamp := false, has_doctor_name := false
         , has_hospital_name := false, has_policy_number := false
         , has_claim_number := false }]
      = ruleBasedScoring
        [{ document_type := "other", text_length := 10, word_count := 2
         , has_dates := false, has_amounts := false, has_phone_numbers := false
         , has_email := false, has_medical_terms := 0, has_prescription_terms := 0
         , has_invoice_terms := 0, date_consistency := 1, amount_consistency := 1
         , has_signature := false, has_stamp := false, has_doctor_name := false
         , has_hospital_name := false, has_policy_number := false
         , has_claim_number := false }] :=
  C5_model_failure_falls_back_to_rules failingModel _ "scaling error" rfl

theorem foldl_add_eq_sum (f : DocFeatures → ℚ) (l : List DocFeatures) :
    ∀ a : ℚ, l.foldl (fun s d => s + f d) a = a + (l.map f).sum := by
  induction l with
  | nil => intro a; simp
  | cons d t ih =>
    intro a
    simp only [List.foldl_cons, List.map_cons, List.sum_cons, ih (a + f d)]
    ring

theorem foldl_sub_eq_sum (f : DocFeatures → ℚ) (l : List DocFeatures) :
    ∀ a : ℚ, l.foldl (fun s d => s - f d) a = a - (l.map f).sum := by
  induction l with
  | nil => intro a; simp
  | cons d t ih =>
    intro a
    simp only [List.foldl_cons, List.map_cons, List.sum_cons, ih (a - f d)]
    ring

/-- The two accumulation loops plus final clamp of _rule_based_scoring
amount to clamping 50 plus the sum of all per-document deltas; the equation
also holds for the empty list, where the early return yields the same 50. -/
theorem ruleBasedScoring_eq_clamped_sum (docs : List DocFeatures) :
    ruleBasedScoring docs
      = clampScore (50 + ((docs.map posDelta).sum - (docs.map negDelta).sum)) := by
  unfold ruleBasedScoring
  split
  · rename_i h
    rw [List.isEmpty_iff.mp h]
    norm_num [clampScore]
  · simp only [foldl_add_eq_sum, foldl_sub_eq_sum]
    congr 1
    ring

/-- C2 counterexample: a medical_report document carrying a signature, a
stamp, a doctor name, a hospital name and more than 500 characters of text,
with no negative signal firing, yet scoring 73 rather than the claimed 78,
because its medical-term count is not above 3. -/
theorem C2_counterexample :
    ruleBasedScoring
      [{ document_type := "medical_report", text_length := 501, word_count := 90
       , has_dates := true, has_amounts := true, has_phone_numbers := false
       , has_email := false, has_medical_terms := 0, has_prescription_terms := 0
       , has_invoice_terms := 0, date_consistency := 1, amount_consistency := 1
       , has_signature := true, has_stamp := true, has_doctor_name := true
       , has_hospital_name := true, has_policy_number := false
       , has_claim_number := false }] = 73 ∧ (73 : ℚ) ≠ 78 := by
  constructor
  · norm_num [ruleBasedScoring, posDelta, negDelta, clampScore]
  · norm_num

/-- C2 (amended): rule-based scoring starts at 50.0, accumulates the fixed
per-document increments (+5 signature, +5 stamp, +5 doctor name, +5 hospital
name, +3 policy number, +3 claim number, +5 medical-term count above 3,
+3 text length above 500) and penalties (-10 text length below 50, -5
missing dates, -10 invoice without amounts, -10 date consistency below 0.5,
-10 amount consistency below 0.5) over all documents into one running total
clamped to [0, 100] at the end; and a single medical_report document with
signature, stamp, doctor name, hospital name, medical-term count above 3,
more than 500 characters of text, no policy-number or claim-number hit and
no negative signal scores exactly 78, with risk level low. -/
theorem C2_rule_based_scoring (docs : List DocFeatures) (d : DocFeatures)
    (h1 : d.has_signature = true) (h2 : d.has_stamp = true)
    (h3 : d.has_doctor_name = true) (h4 : d.has_hospital_name = true)
    (h5 : 3 < d.has_medical_terms) (h6 : 500 < d.text_length)
    (h7 : d.has_dates = true) (h8 : d.has_policy_number = false)
    (h9 : d.has_claim_number = false) (h10 : 1/2 ≤ d.date_consistency)
    (h11 : 1/2 ≤ d.amount_consistency)
    (h12 : d.has_amounts = true ∨ d.document_type ≠ "invoice") :
    ruleBasedScoring docs
      = clampScore (50 + ((docs.map posDelta).sum - (docs.map negDelta).sum)) ∧
    ruleBasedScoring [d] = 78 ∧ riskLevelOf 78 = "low" := by
  refine ⟨ruleBasedScoring_eq_clamped_sum docs, ?_, by norm_num [riskLevelOf]⟩
  have hlen50 : ¬(d.text_length < 50) := by omega
  have hinv : ¬(!d.has_amounts && d.document_type == "invoice") = true := by
    rcases h12 with ha | ht
    · simp [ha]
    · simp [ht]
  have hdc : ¬(d.date_consistency < 1/2) := not_lt.mpr h10
  have hac : ¬(d.amount_consistency < 1/2) := not_lt.mpr h11
  rw [ruleBasedScoring_eq_clamped_sum]
  simp only [List.map_cons, List.map_nil, List.sum_cons, List.sum_nil, posDelta, negDelta,
    h1, h2, h3, h4, h5, h6, h7, h8, h9, hlen50, hinv, hdc, hac, if_true, if_false,
    ite_true, ite_false, Bool.not_true, Bool.false_eq_true]
  norm_num [clampScore]

/-- Witness for C2 at a concrete document satisfying every hypothesis of the
amended scenario. -/
theorem C2_witness :
    ruleBasedScoring
      [{ document_type := "medical_report", text_length := 620, word_count := 100
       , has_dates := true, has_amounts := true, has_phone_numbers := false
       , has_email := false, has_medical_terms := 5, has_prescription_terms := 0
       , has_invoice_terms := 0, date_consistency := 1, amount_consistency := 1
       , has_signature := true, has_stamp := true, has_doctor_name := true
       , has_hospital_name := true, has_policy_number := false
       , has_claim_number := false }] = 78 ∧ riskLevelOf 78 = "low" :=
  (C2_rule_based_scoring []
    { document_type := "medical_report", text_length := 620, word_count := 100
    , has_dates := true, has_amounts := true, has_phone_numbers := false
    , has_email := false, has_medical_terms := 5, has_prescription_terms := 0
    , has_invoice_terms := 0, date_consistency := 1, amount_consistency := 1
    , has_signature := true, has_stamp := true, has_doctor_name := true
    , has_hospital_name := true, has_policy_number := false
    , has_claim_number := false }
    rfl rfl rfl rfl (by norm_num) (by norm_num) rfl rfl rfl (by norm_num)
    (by norm_num) (Or.inl rfl)).2

/-- Closed form of the aggregation fold: integer fields accumulate as sums,
boolean fields as any-over-the-list, the consistency fields as the running
pairwise average, and document_type is untouched. -/
theorem foldl_aggStep_eq (l : List DocFeatures) : ∀ acc : DocFeatures,
    l.foldl aggStep acc =
    { document_type := acc.document_type
    , text_length := acc.text_length + (l.map DocFeatures.text_length).sum
    , word_count := acc.word_count + (l.map DocFeatures.word_count).sum
    , has_dates := acc.has_dates || l.any DocFeatures.has_dates
    , has_amounts := acc.has_amounts || l.any DocFeatures.has_amounts
    , has_phone_numbers := acc.has_phone_numbers || l.any DocFeatures.has_phone_numbers
    , has_email := acc.has_email || l.any DocFeatures.has_email
    , has_medical_terms :=
        acc.has_medical_terms + (l.map DocFeatures.has_medical_terms).sum
    , has_prescription_terms :=
        acc.has_prescription_terms + (l.map DocFeatures.has_prescription_terms).sum
    , has_invoice_terms :=
        acc.has_invoice_terms + (l.map DocFeatures.has_invoice_terms).sum
    , date_consistency :=
        (l.map DocFeatures.date_consistency).foldl
          (fun a c => (a + c) / 2) acc.date_consistency
    , amount_consistency :=
        (l.map DocFeatures.amount_consistency).foldl
          (fun a c => (a + c) / 2) acc.amount_consistency
    , has_signature := acc.has_signature || l.any DocFeatures.has_signature
    , has_stamp := acc.has_stamp || l.any DocFeatures.has_stamp
    , has_doctor_name := acc.has_doctor_name || l.any DocFeatures.has_doctor_name
    , has_hospital_name := acc.has_hospital_name || l.any DocFeatures.has_hospital_name
    , has_policy_number := acc.has_policy_number || l.any DocFeatures.has_policy_number
    , has_claim_number := acc.has_claim_number || l.any DocFeatures.has_claim_number } := by
  induction l with
  | nil => intro acc; simp
  | cons d t ih =>
    intro acc
    rw [List.foldl_cons, ih (aggStep acc d)]
    simp only [aggStep, List.map_cons, List.sum_cons, List.any_cons, List.foldl_cons,
      DocFeatures.mk.injEq, Bool.or_assoc, true_and, and_true]
    omega

theorem perm_any_eq {α : Type} (f : α → Bool) {l1 l2 : List α} (h : l1.Perm l2) :
    l1.any f = l2.any f := by
  induction h with
  | nil => rfl
  | cons x _ ih => simp only [List.any_cons, ih]
  | swap x y l =>
    simp only [List.any_cons, ← Bool.or_assoc, Bool.or_comm (f y) (f x)]
  | trans _ _ ih1 ih2 => exact ih1.trans ih2

/-- C6: aggregation starts from the neutral accumulator and returns it
unchanged for the empty list, always sets document_type to the constant
mixed, sums the integer fields and ORs the boolean fields (making all of
them invariant under permutation of the documents, has_signature in
particular), and runs the order-dependent pairwise average on the
consistency fields, a single document with consistency c aggregating to
(1 + c) / 2. -/
theorem C6_aggregation_semantics :
    (aggregateFeatures [] = aggregateInit) ∧
    (∀ l : List DocFeatures, (aggregateFeatures l).document_type = "mixed") ∧
    (∀ l1 l2 : List DocFeatures, l1.Perm l2 →
      (aggregateFeatures l1).text_length = (aggregateFeatures l2).text_length ∧
      (aggregateFeatures l1).word_count = (aggregateFeatures l2).word_count ∧
      (aggregateFeatures l1).has_medical_terms
        = (aggregateFeatures l2).has_medical_terms ∧
      (aggregateFeatures l1).has_prescription_terms
        = (aggregateFeatures l2).has_prescription_terms ∧
      (aggregateFeatures l1).has_invoice_terms
        = (aggregateFeatures l2).has_invoice_terms ∧
      (aggregateFeatures l1).has_dates = (aggregateFeatures l2).has_dates ∧
      (aggregateFeatures l1).has_amounts = (aggregateFeatures l2).has_amounts ∧
      (aggregateFeatures l1).has_phone_numbers
        = (aggregateFeatures l2).has_phone_numbers ∧
      (aggregateFeatures l1).has_email = (aggregateFeatures l2).has_email ∧
      (aggregateFeatures l1).has_signature = (aggregateFeatures l2).has_signature ∧
      (aggregateFeatures l1).has_stamp = (aggregateFeatures l2).has_stamp ∧
      (aggregateFeatures l1).has_doctor_name
        = (aggregateFeatures l2).has_doctor_name ∧
      (aggregateFeatures l1).has_hospital_name
        = (aggregateFeatures l2).has_hospital_name ∧
      (aggregateFeatures l1).has_policy_number
        = (aggregateFeatures l2).has_policy_number ∧
      (aggregateFeatures l1).has_claim_number
        = (aggregateFeatures l2).has_claim_number) ∧
    (∀ d1 d2 : DocFeatures,
      (aggregateFeatures [d1, d2]).has_signature
        = (d1.has_signature || d2.has_signature)) ∧
    (∀ d : DocFeatures,
      (aggregateFeatures [d]).date_consistency = (1 + d.date_consistency) / 2 ∧
      (aggregateFeatures [d]).amount_consistency = (1 + d.amount_consistency) / 2) ∧
    (∃ d1 d2 : DocFeatures,
      (aggregateFeatures [d1, d2]).date_consistency
        ≠ (aggregateFeatures [d2, d1]).date_consistency) := by
  refine ⟨rfl, ?_, ?_, ?_, ?_, ?_⟩
  · intro l
    rw [aggregateFeatures, foldl_aggStep_eq]
    rfl
  · intro l1 l2 hp
    have hs : ∀ f : DocFeatures → Nat, (l1.map f).sum = (l2.map f).sum :=
      fun f => (hp.map f).sum_eq
    have ha : ∀ f : DocFeatures → Bool, l1.any f = l2.any f :=
      fun f => perm_any_eq f hp
    rw [aggregateFeatures, aggregateFeatures, foldl_aggStep_eq, foldl_aggStep_eq]
    simp [hs, ha]
  · intro d1 d2
    simp [aggregateFeatures, aggStep, aggregateInit]
  · intro d
    exact ⟨rfl, rfl⟩
  · refine ⟨{ aggregateInit with date_consistency := 0 }, aggregateInit, ?_⟩
    norm_num [aggregateFeatures, aggStep, aggregateInit]

/-- Witness for C6 applying the permutation-invariance part at a concrete
pair of documents in both orders. -/
theorem C6_witness :
    (aggregateFeatures
        [{ aggregateInit with text_length := 3 },
         { aggregateInit with has_signature := true }]).text_length
      = (aggregateFeatures
        [{ aggregateInit with has_signature := true },
         { aggregateInit with text_length := 3 }]).text_length ∧
    (aggregateFeatures
        [{ aggregateInit with text_length := 3 },
         { aggregateInit with has_signature := true }]).has_signature
      = (aggregateFeatures
        [{ aggregateInit with has_signature := true },
         { aggregateInit with text_length := 3 }]).has_signature :=
  have h := C6_aggregation_semantics.2.2.1
    [{ aggregateInit with text_length := 3 },
     { aggregateInit with has_signature := true }]
    [{ aggregateInit with has_signature := true },
     { aggregateInit with text_length := 3 }]
    (List.Perm.swap { aggregateInit with has_signature := true }
      { aggregateInit with text_length := 3 } [])
  ⟨h.1, h.2.2.2.2.2.2.2.2.2.1⟩

theorem foldl_append_docIndicators (l : List DocFeatures) :
    ∀ acc : List String,
      l.foldl (fun acc d => acc ++ docIndicators d) acc
        = acc ++ l.foldl (fun acc d => acc ++ docIndicators d) [] := by
  induction l with
  | nil => intro acc; simp
  | cons d t ih =>
    intro acc
    rw [List.foldl_cons, List.foldl_cons, ih (acc ++ docIndicators d),
      ih ([] ++ docIndicators d)]
    simp

theorem ite_isEmpty_ne_nil (l : List String) (s : String) :
    (if l.isEmpty then [s] else l) ≠ [] := by
  split
  · simp
  · rename_i h
    intro hc
    rw [hc] at h
    simp at h

theorem extractIndicators_ne_nil (dfs : List DocFeatures) (legit : ℚ) :
    extractIndicatorsFromFeatures dfs legit ≠ [] := by
  unfold extractIndicatorsFromFeatures
  split
  · simp
  · exact ite_isEmpty_ne_nil _ _

/-- C8 counterexample: in AI-enabled mode with the Gemini call failing, a
claim with two processed documents and three asked questions receives the
mock narrative analysis, whose indicators list is empty, so the returned
indicators list is empty. -/
theorem C8_counterexample :
    (analyzeFraudRisk (.enabled (.error "Gemini API error")) none
      [{ document_type := "other", text_length := 10, word_count := 2
       , has_dates := false, has_amounts := false, has_phone_numbers := false
       , has_email := false, has_medical_terms := 0, has_prescription_terms := 0
       , has_invoice_terms := 0, date_consistency := 1, amount_consistency := 1
       , has_signature := false, has_stamp := false, has_doctor_name := false
       , has_hospital_name := false, has_policy_number := false
       , has_claim_number := false },
       { document_type := "other", text_length := 10, word_count := 2
       , has_dates := false, has_amounts := false, has_phone_numbers := false
       , has_email := false, has_medical_terms := 0, has_prescription_terms := 0
       , has_invoice_terms := 0, date_consistency := 1, amount_consistency := 1
       , has_signature := false, has_stamp := false, has_doctor_name := false
       , has_hospital_name := false, has_policy_number := false
       , has_claim_number := false }] 2 3).indicators = [] := by
  rfl

/-- C8 (amended): in local-fallback mode (AI disabled) the indicators list
is never empty for any input; for the empty document list it is exactly
"No documents uploaded for verification", and when no per-document
indicator triggers and the legit percentage is not below 40, it is exactly
"No major fraud indicators detected".  In AI-enabled mode the indicators
come from the narrative generator and can be empty. -/
theorem C8_indicators_nonempty (model : Option ModelState) (dfs : List DocFeatures)
    (legit : ℚ) (nD nQ : Nat) :
    (analyzeFraudRisk .disabled model dfs nD nQ).indicators ≠ [] ∧
    extractIndicatorsFromFeatures dfs legit ≠ [] ∧
    extractIndicatorsFromFeatures [] legit = ["No documents uploaded for verification"] ∧
    (dfs ≠ [] → (∀ d ∈ dfs, docIndicators d = []) → 40 ≤ legit →
      extractIndicatorsFromFeatures dfs legit = ["No major fraud indicators detected"]) := by
  refine ⟨extractIndicators_ne_nil dfs _, extractIndicators_ne_nil dfs legit, rfl, ?_⟩
  intro hne hall hlegit
  have hfold : dfs.foldl (fun acc d => acc ++ docIndicators d) [] = [] := by
    clear hne
    induction dfs with
    | nil => rfl
    | cons d t ih =>
      rw [List.foldl_cons, foldl_append_docIndicators]
      rw [hall d (List.mem_cons_self d t), ih (fun x hx => hall x (List.mem_cons_of_mem d hx))]
      rfl
  unfold extractIndicatorsFromFeatures
  rw [if_neg (by simpa using hne)]
  simp only [hfold, if_neg (not_lt.mpr hlegit)]
  rfl

/-- Witness for C8 at a concrete clean document and legit percentage 50. -/
theorem C8_witness :
    extractIndicatorsFromFeatures
      [{ document_type := "other", text_length := 100, word_count := 10
       , has_dates := true, has_amounts := true, has_phone_numbers := false
       , has_email := false, has_medical_terms := 0, has_prescription_terms := 0
       , has_invoice_terms := 0, date_consistency := 1, amount_consistency := 1
       , has_signature := false, has_stamp := false, has_doctor_name := false
       , has_hospital_name := false, has_policy_number := false
       , has_claim_number := false }] 50 = ["No major fraud indicators detected"] :=
  (C8_indicators_nonempty none
    [{ document_type := "other", text_length := 100, word_count := 10
     , has_dates := true, has_amounts := true, has_phone_numbers := false
     , has_email := false, has_medical_terms := 0, has_prescription_terms := 0
     , has_invoice_terms := 0, date_consistency := 1, amount_consistency := 1
     , has_signature := false, has_stamp := false, has_doctor_name := false
     , has_hospital_name := false, has_policy_number := false
     , has_claim_number := false }] 50 0 0).2.2.2
    (by decide)
    (by
      intro d hd
      rw [List.mem_singleton] at hd
      subst hd
      norm_num [docIndicators]
      refine ⟨⟨by decide, by decide⟩, by decide⟩)
    (by norm_num)

/-- C9: for every input text, date and amount consistency return exactly 1.0
when the corresponding regex finds fewer than two matches and exactly 0.8
otherwise, and therefore always lie in [0, 1]. -/
theorem C9_consistency_placeholder (text : String) :
    (countMatches dateRegex text.toList < 2 → checkDateConsistency text = 1) ∧
    (2 ≤ countMatches dateRegex text.toList → checkDateConsistency text = 8/10) ∧
    (countMatches amountRegex text.toList < 2 → checkAmountConsistency text = 1) ∧
    (2 ≤ countMatches amountRegex text.toList → checkAmountConsistency text = 8/10) ∧
    0 ≤ checkDateConsistency text ∧ checkDateConsistency text ≤ 1 ∧
    0 ≤ checkAmountConsistency text ∧ checkAmountConsistency text ≤ 1 := by
  unfold checkDateConsistency checkAmountConsistency
  refine ⟨fun h => if_pos h, fun h => if_neg (not_lt.mpr h), fun h => if_pos h,
    fun h => if_neg (not_lt.mpr h), ?_, ?_, ?_, ?_⟩ <;> split <;> norm_num

/-- Witness for C9: a text with two date matches maps to 0.8 and a text with
a single amount match maps to 1.0. -/
theorem C9_witness :
    checkDateConsistency "Admitted 01/02/2020 discharged 03/04/2020" = 8/10 ∧
    checkAmountConsistency "Total $100" = 1 :=
  ⟨(C9_consistency_placeholder "Admitted 01/02/2020 discharged 03/04/2020").2.1
      (by decide),
   (C9_consistency_placeholder "Total $100").2.2.1 (by decide)⟩

/-- C7 counterexample: a Word document with no paragraphs makes the
storage-layer extractor return the filename, not the empty paragraph join,
and the fraud-pipeline extractor returns empty text for every Word document
even when its paragraphs are nonempty. -/
theorem C7_counterexample :
    wordTextExtract (.ok []) "scan.docx" = "scan.docx" ∧
    String.intercalate "\n" ([] : List String) = "" ∧
    ("scan.docx" : String) ≠ "" ∧
    extractText "report.docx"
      "application/vnd.openxmlformats-officedocument.wordprocessingml.document"
      "Paragraph text" "ocr text" = "" :=
  ⟨rfl, rfl, by decide, rfl⟩

/-- C7 (amended): for Word documents the storage-layer extractor
extract_text_from_document returns the newline join of the paragraph texts
truncated to its first 5000 characters when that join is nonempty, and the
filename when the join is empty or parsing fails; the fraud-pipeline
extractor DocumentProcessor.extract_text handles only PDF and image types
and returns the empty string for Word documents. -/
theorem C7_word_extraction (paragraphs : List String) (filename : String) :
    (String.intercalate "\n" paragraphs ≠ "" →
      wordTextExtract (.ok paragraphs) filename
        = (String.intercalate "\n" paragraphs).take 5000) ∧
    (String.intercalate "\n" paragraphs = "" →
      wordTextExtract (.ok paragraphs) filename = filename) ∧
    wordTextExtract .failed filename = filename ∧
    (∀ fileType pdfText ocrText : String, fileType ≠ "application/pdf" →
      "image/".toList.isPrefixOf fileType.toList = false →
      endsWithPdfLower filename = false →
      extractText filename fileType pdfText ocrText = "") := by
  refine ⟨fun h => ?_, fun h => ?_, rfl, ?_⟩
  · show (if String.intercalate "\n" paragraphs = "" then filename
        else (String.intercalate "\n" paragraphs).take 5000)
      = (String.intercalate "\n" paragraphs).take 5000
    rw [if_neg h]
  · show (if String.intercalate "\n" paragraphs = "" then filename
        else (String.intercalate "\n" paragraphs).take 5000) = filename
    rw [if_pos h]
  · intro ft p o h1 h2 h3
    unfold extractText
    rw [if_neg (by simp [h1, h3]), if_neg (by rw [h2]; exact Bool.false_ne_true)]

/-- Witness for C7 at a concrete two-paragraph document and a concrete Word
MIME type. -/
theorem C7_witness :
    wordTextExtract (.ok ["Hello", "World"]) "r.docx"
      = (String.intercalate "\n" ["Hello", "World"]).take 5000 ∧
    extractText "r.docx" "application/msword" "pdf text" "ocr text" = "" :=
  ⟨(C7_word_extraction ["Hello", "World"] "r.docx").1 (by decide),
   (C7_word_extraction ["Hello", "World"] "r.docx").2.2.2 "application/msword"
     "pdf text" "ocr text" (by decide) (by decide) (by decide)⟩

/-- C10: process_document hands the document category to extract_text as its
file-type argument, so whenever the file path does not end in ".pdf"
(case-insensitively) the extracted text is the empty string no matter what
the PDF or OCR libraries would have produced, and the stored feature record
is the feature extraction of the empty string: zero lengths and counts, all
presence booleans false, both consistencies 1.0. -/
theorem C10_category_passed_as_media_type (path dtype pdfText ocrText : String)
    (hpdf : endsWithPdfLower path = false)
    (hcat : dtype ∈ ["medical_report", "prescription", "invoice", "lab_result", "other"]) :
    (processDocument path dtype pdfText ocrText).1 = "" ∧
    (processDocument path dtype pdfText ocrText).2 = extractFeatures "" dtype ∧
    extractFeatures "" dtype =
      { document_type := dtype, text_length := 0, word_count := 0
      , has_dates := false, has_amounts := false, has_phone_numbers := false
      , has_email := false, has_medical_terms := 0, has_prescription_terms := 0
      , has_invoice_terms := 0, date_consistency := 1, amount_consistency := 1
      , has_signature := false, has_stamp := false, has_doctor_name := false
      , has_hospital_name := false, has_policy_number := false
      , has_claim_number := false } := by
  have hext : extractText path dtype pdfText ocrText = "" := by
    fin_cases hcat <;> simp [extractText, hpdf]
  exact ⟨hext, by rw [processDocument, hext], rfl⟩

/-- Witness for C10 at a concrete image path and category. -/
theorem C10_witness :
    (processDocument "photo.jpg" "invoice" "pdf text" "ocr text").1 = "" ∧
    (processDocument "photo.jpg" "invoice" "pdf text" "ocr text").2
      = extractFeatures "" "invoice" :=
  have h := C10_category_passed_as_media_type "photo.jpg" "invoice" "pdf text" "ocr text"
    (by decide) (by decide)
  ⟨h.1, h.2.1⟩
